import Mathlib

/-
Verification of the windowing engine `WindowedListState` of react-windowed-list.

The engine is a single mutable class over plain JavaScript numbers.  The
shallow embedding below represents it as a structure over exact rationals
(`ℚ`), list length and window indices as naturals, and the sparse
index-to-height table as an association list keyed by integers (the source
uses a `Map` and may be handed out-of-range or, in principle, negative
indices; `getItemHeight` treats an index beyond `length - 1` as height 0 and
an unmeasured index as `defaultHeight`).  Every loop of the source is bounded
by the list length or the current top index, and is embedded as structural
recursion on an explicit fuel argument equal to the number of iterations the
loop condition admits, so that all definitions compute by `decide` and `rfl`.

Calls of the (debounced) `handleChange` callback are counted in a
`notifyCount` field: a mutation notifies subscribers exactly when it bumps
the counter.
-/

structure WindowedListState where
  viewportHeight : ℚ
  length : ℕ
  defaultHeight : ℚ
  visibleIndexTop : ℕ
  visibleLength : ℕ
  paddingTop : ℚ
  paddingBottom : ℚ
  scrollTop : ℚ
  heights : List (ℤ × ℚ)
  totalHeight : ℚ
  visibleIndicesCalculated : Bool
  notifyCount : ℕ
deriving DecidableEq

/-- First-match lookup in the association list backing the source `Map`;
`heightsSet` below records a measurement by prepending, which shadows any
older entry, matching `Map.set` overwrite semantics for `Map.get`. -/
def heightsGet : List (ℤ × ℚ) → ℤ → Option ℚ
  | [], _ => none
  | (j, h) :: rest, i => if j = i then some h else heightsGet rest i

def heightsSet (hs : List (ℤ × ℚ)) (i : ℤ) (h : ℚ) : List (ℤ × ℚ) :=
  (i, h) :: hs

/-- Source `getItemHeight`: an index beyond `length - 1` contributes 0, an
unmeasured index contributes `defaultHeight`. -/
def getItemHeight (s : WindowedListState) (index : ℤ) : ℚ :=
  if index > (s.length : ℤ) - 1 then 0
  else
    match heightsGet s.heights index with
    | some h => h
    | none => s.defaultHeight

/-- Body of the source `getItemRangeHeight` loop
`for (i = startIndex; i <= endIndex; i++) sum += getItemHeight(i)`,
with fuel equal to the number of iterations. -/
def rangeHeightAux (s : WindowedListState) : ℕ → ℤ → ℚ
  | 0, _ => 0
  | fuel + 1, i => getItemHeight s i + rangeHeightAux s fuel (i + 1)

def getItemRangeHeight (s : WindowedListState) (startIndex endIndex : ℤ) : ℚ :=
  rangeHeightAux s (endIndex + 1 - startIndex).toNat startIndex

/-- Body of the source `calcVisibleLength` loop: walk `i` upward from
`visibleIndexTop` while `i < length`, counting an item whenever the
accumulated `visibleHeight` is still below `viewportHeight` and stopping at
the first item for which it is not.  Fuel is `length - i`, the number of
indices the loop condition `i < length` admits. -/
def visLenAux (s : WindowedListState) : ℕ → ℕ → ℚ → ℕ
  | 0, _, _ => 0
  | fuel + 1, i, visibleHeight =>
    if visibleHeight < s.viewportHeight then
      1 + visLenAux s fuel (i + 1) (visibleHeight + getItemHeight s (i : ℤ))
    else 0

/-- Source `calcVisibleLength`: `visibleHeight` starts at
`-(scrollTop - paddingTop)`, i.e. `paddingTop - scrollTop`. -/
def calcVisibleLength (s : WindowedListState) : ℕ :=
  visLenAux s (s.length - s.visibleIndexTop) s.visibleIndexTop
    (s.paddingTop - s.scrollTop)

/-- Shared shape of the two forward scans of the source (the top-index scan of
`calculateVisibleIndices` starting at 0 and the scrolled-down walk of
`updateScrollPosition` starting at the current top): walk `i` upward while
`i < length`, accumulating item heights into `paddingTop` while the running
sum stays at most `target`, and stop at the first item that would exceed it.
Returns the final index and accumulated padding.  Fuel is `length - i`. -/
def scanDown (s : WindowedListState) (target : ℚ) : ℕ → ℕ → ℚ → ℕ × ℚ
  | 0, i, pt => (i, pt)
  | fuel + 1, i, pt =>
    let h := getItemHeight s (i : ℤ)
    if pt + h ≤ target then scanDown s target fuel (i + 1) (pt + h) else (i, pt)

/-- Scrolled-up walk of `updateScrollPosition`: for `i` from
`visibleIndexTop - 1` down to 0, while `paddingTop > target` subtract the
height of item `i` and decrement the top index.  The first argument is the
current top index, which also bounds the number of iterations. -/
def upWalk (s : WindowedListState) (target : ℚ) : ℕ → ℚ → ℕ × ℚ
  | 0, pt => (0, pt)
  | top + 1, pt =>
    if pt > target then upWalk s target top (pt - getItemHeight s (top : ℤ))
    else (top + 1, pt)

/-- Source `calculateVisibleIndices`: full recompute of the window and both
paddings; marks `visibleIndicesCalculated` and invokes the change handler. -/
def calculateVisibleIndices (s : WindowedListState) : WindowedListState :=
  let tp : ℕ × ℚ :=
    if s.scrollTop = 0 then (0, 0) else scanDown s s.scrollTop s.length 0 0
  let s1 := { s with visibleIndexTop := tp.1, paddingTop := tp.2 }
  let s2 := { s1 with visibleLength := calcVisibleLength s1 }
  let visibleIndexBottom : ℤ := (s2.visibleIndexTop : ℤ) + (s2.visibleLength : ℤ) - 1
  { s2 with
    paddingBottom := getItemRangeHeight s2 (visibleIndexBottom + 1) ((s2.length : ℤ) - 1),
    visibleIndicesCalculated := true,
    notifyCount := s2.notifyCount + 1 }

/-- Source `calcPaddingBottom`: the bottom-padding adjustment rule.  Forces 0
at the end of the list, adds the heights of indices `visibleIndexBottom + 1`
to `prevVisibleIndexBottom` when the bottom moved up, subtracts the heights
of indices `prevVisibleIndexBottom` to `visibleIndexBottom - 1` (floored at
0) when it moved down, and finally clamps to the average-height floor
`(length - visibleIndexBottom - 1) * (totalHeight / length)`.

Caveat: for `length = 0` the source divides by zero in JavaScript
(giving NaN or an infinity) while `ℚ` division by zero yields 0; every claim
involving this floor assumes `length > 0`, where the two agree. -/
def calcPaddingBottom (s : WindowedListState)
    (visibleIndexBottom prevVisibleIndexBottom : ℤ) : ℚ :=
  let pb : ℚ :=
    if visibleIndexBottom = (s.length : ℤ) - 1 then 0
    else if visibleIndexBottom < prevVisibleIndexBottom then
      s.paddingBottom + getItemRangeHeight s (visibleIndexBottom + 1) prevVisibleIndexBottom
    else if visibleIndexBottom > prevVisibleIndexBottom then
      max 0 (s.paddingBottom - getItemRangeHeight s prevVisibleIndexBottom (visibleIndexBottom - 1))
    else s.paddingBottom
  let nItemsScrollBottom : ℤ := (s.length : ℤ) - visibleIndexBottom - 1
  let minPaddingBottom : ℚ := (nItemsScrollBottom : ℚ) * (s.totalHeight / (s.length : ℚ))
  if pb < minPaddingBottom then minPaddingBottom else pb

/-- Source `updateViewportHeight`. -/
def updateViewportHeight (s : WindowedListState) (height : ℚ) : WindowedListState :=
  if height = s.viewportHeight then s
  else
    let s1 := { s with viewportHeight := height }
    let prevVisibleLength := s1.visibleLength
    let s2 := { s1 with visibleLength := calcVisibleLength s1 }
    let prevVisibleIndexBottom : ℤ := (s2.visibleIndexTop : ℤ) + (prevVisibleLength : ℤ) - 1
    let visibleIndexBottom : ℤ := (s2.visibleIndexTop : ℤ) + (s2.visibleLength : ℤ) - 1
    { s2 with
      paddingBottom := calcPaddingBottom s2 visibleIndexBottom prevVisibleIndexBottom,
      notifyCount := s2.notifyCount + 1 }

/-- Source `updateLength`: adjusts `totalHeight` by
`(newLength - oldLength) * defaultHeight`; on growth recomputes
`visibleLength` and adds the heights of indices
`prevLength + nNewVisible` to `newLength - 1` to `paddingBottom`; on
shrink falls back to `calculateVisibleIndices` (which does the notifying). -/
def updateLength (s : WindowedListState) (len : ℕ) : WindowedListState :=
  if len = s.length then s
  else
    let prevLength := s.length
    let s1 := { s with
      length := len,
      totalHeight := s.totalHeight + ((len : ℚ) - (prevLength : ℚ)) * s.defaultHeight }
    if len > prevLength then
      let prevVisibleLength := s1.visibleLength
      let s2 := { s1 with visibleLength := calcVisibleLength s1 }
      let nNewVisible : ℤ := (s2.visibleLength : ℤ) - (prevVisibleLength : ℤ)
      let heightDelta := getItemRangeHeight s2 ((prevLength : ℤ) + nNewVisible) ((len : ℤ) - 1)
      { s2 with
        paddingBottom := s2.paddingBottom + heightDelta,
        notifyCount := s2.notifyCount + 1 }
    else calculateVisibleIndices s1

/-- Source `updateScrollPosition`: stores the new `scrollTop` first, delegates
to `calculateVisibleIndices` before the first full computation, returns
unchanged on a zero delta, and otherwise walks the top index incrementally in
the direction of the delta before recomputing `visibleLength` and applying
the bottom-padding rule. -/
def updateScrollPosition (s : WindowedListState) (newScrollTop : ℚ) : WindowedListState :=
  let prevScrollTop := s.scrollTop
  let s0 := { s with scrollTop := newScrollTop }
  if s0.visibleIndicesCalculated = false then calculateVisibleIndices s0
  else
    let prevVisibleIndexTop := s0.visibleIndexTop
    let prevVisibleLength := s0.visibleLength
    let scrollTopDelta := newScrollTop - prevScrollTop
    if scrollTopDelta = 0 then s0
    else
      let s1 :=
        if scrollTopDelta < 0 then
          let tp := upWalk s0 newScrollTop s0.visibleIndexTop s0.paddingTop
          { s0 with visibleIndexTop := tp.1, paddingTop := tp.2 }
        else
          let tp := scanDown s0 newScrollTop (s0.length - s0.visibleIndexTop)
            s0.visibleIndexTop s0.paddingTop
          { s0 with visibleIndexTop := tp.1, paddingTop := tp.2 }
      let s2 := { s1 with visibleLength := calcVisibleLength s1 }
      let prevVisibleIndexBottom : ℤ :=
        (prevVisibleIndexTop : ℤ) + (prevVisibleLength : ℤ) - 1
      let visibleIndexBottom : ℤ := (s2.visibleIndexTop : ℤ) + (s2.visibleLength : ℤ) - 1
      { s2 with
        paddingBottom := calcPaddingBottom s2 visibleIndexBottom prevVisibleIndexBottom,
        notifyCount := s2.notifyCount + 1 }

/-- Source `updateHeightAtIndex`: records the measured height, adjusts
`totalHeight` by the delta, and splits on the position of the index relative
to the current window.  The source loop `while (paddingTop > scrollTop)
scrollTop++` adds 1 to `scrollTop` until it reaches at least `paddingTop`,
i.e. max 0 of the ceiling of `paddingTop - scrollTop` times, which is the
closed form used here. -/
def updateHeightAtIndex (s : WindowedListState) (index : ℤ) (height : ℚ) : WindowedListState :=
  let prevHeight := getItemHeight s index
  let prevVisibleIndexTop := s.visibleIndexTop
  let prevVisibleLength := s.visibleLength
  let prevVisibleIndexBottom : ℤ :=
    (prevVisibleIndexTop : ℤ) + (prevVisibleLength : ℤ) - 1
  let s1 := { s with
    heights := heightsSet s.heights index height,
    totalHeight := s.totalHeight - prevHeight + height }
  if index > prevVisibleIndexBottom then
    { s1 with
      paddingBottom := s1.paddingBottom - prevHeight + height,
      notifyCount := s1.notifyCount + 1 }
  else
    let s2 :=
      if index < (s1.visibleIndexTop : ℤ) then
        let pt := s1.paddingTop - prevHeight + height
        { s1 with
          paddingTop := pt,
          scrollTop := s1.scrollTop + ((⌈pt - s1.scrollTop⌉.toNat : ℕ) : ℚ) }
      else s1
    let s3 := { s2 with visibleLength := calcVisibleLength s2 }
    let visibleIndexBottom : ℤ := (s3.visibleIndexTop : ℤ) + (s3.visibleLength : ℤ) - 1
    { s3 with
      paddingBottom := calcPaddingBottom s3 visibleIndexBottom prevVisibleIndexBottom,
      notifyCount := s3.notifyCount + 1 }

/-- The two exported construction options, `defaultHeight(value)` and
`scrollTop(value)`, each a function that assigns one field. -/
inductive StateOption where
  | defaultHeight (value : ℚ)
  | scrollTop (value : ℚ)

def applyOption (s : WindowedListState) : StateOption → WindowedListState
  | StateOption.defaultHeight v => { s with defaultHeight := v }
  | StateOption.scrollTop v => { s with scrollTop := v }

/-- Source constructor, with its assignments in source order: first
`viewportHeight = 1`, `length = 0`, `defaultHeight = 0`; then the option
functions run; then `visibleIndexTop`, `visibleLength`, `paddingTop`,
`paddingBottom` are zeroed, `scrollTop` is assigned 0 (after the options
ran), the height table is emptied, and `totalHeight` is computed as
`length * defaultHeight`. -/
def mkState (options : List StateOption) : WindowedListState :=
  let base : WindowedListState :=
    { viewportHeight := 1, length := 0, defaultHeight := 0,
      visibleIndexTop := 0, visibleLength := 0, paddingTop := 0,
      paddingBottom := 0, scrollTop := 0, heights := [], totalHeight := 0,
      visibleIndicesCalculated := false, notifyCount := 0 }
  let s1 := List.foldl applyOption base options
  let s2 := { s1 with
    visibleIndexTop := 0, visibleLength := 0, paddingTop := 0,
    paddingBottom := 0, scrollTop := 0, heights := [],
    visibleIndicesCalculated := false, notifyCount := 0 }
  { s2 with totalHeight := (s2.length : ℚ) * s2.defaultHeight }

/-- Index of the last item of the current window, `visibleIndexTop +
visibleLength - 1`, as an integer (it is -1 for an empty window at top 0). -/
def visibleBottom (s : WindowedListState) : ℤ :=
  (s.visibleIndexTop : ℤ) + (s.visibleLength : ℤ) - 1

/-- End-of-list clamp property of the specification: whenever the window
reaches the last index, `paddingBottom` is exactly 0. -/
def clampOK (s : WindowedListState) : Prop :=
  visibleBottom s = (s.length : ℤ) - 1 → s.paddingBottom = 0

/-- Window-bounds property of the specification:
`visibleIndexTop + visibleLength ≤ length`. -/
def windowInv (s : WindowedListState) : Prop :=
  s.visibleIndexTop + s.visibleLength ≤ s.length

/-- The average-height floor of the bottom-padding rule:
`(number of items below the window) * (totalHeight / length)`. -/
def minPaddingFloor (s : WindowedListState) (bottom : ℤ) : ℚ :=
  (((s.length : ℤ) - bottom - 1 : ℤ) : ℚ) * (s.totalHeight / (s.length : ℚ))

/-- States reachable from a fresh construction through the five public
mutation operations, with non-negative numeric inputs. -/
inductive ReachableState : WindowedListState → Prop
  | construct (options : List StateOption) : ReachableState (mkState options)
  | fullCalc {s : WindowedListState} :
      ReachableState s → ReachableState (calculateVisibleIndices s)
  | viewport {s : WindowedListState} (h : ℚ) (hh : 0 ≤ h) :
      ReachableState s → ReachableState (updateViewportHeight s h)
  | listLength {s : WindowedListState} (n : ℕ) :
      ReachableState s → ReachableState (updateLength s n)
  | scroll {s : WindowedListState} (v : ℚ) (hv : 0 ≤ v) :
      ReachableState s → ReachableState (updateScrollPosition s v)
  | heightAt {s : WindowedListState} (i : ℤ) (hi : 0 ≤ i) (h : ℚ) (hh : 0 ≤ h) :
      ReachableState s → ReachableState (updateHeightAtIndex s i h)

/-
Concrete states used by the counterexamples and witnesses.  The listed field
values mirror the test harness of the repository, which assigns `length`,
`viewportHeight`, `defaultHeight` and `scrollTop` directly on a freshly
constructed instance before the first `calculateVisibleIndices`.
-/

/-- Claim C1 scenario: 10 items of estimated height 10 in a 50px viewport. -/
def seqBase : WindowedListState :=
  { mkState [] with length := 10, viewportHeight := 50, defaultHeight := 10 }

/-- Incremental side of the C1 scenario: full computation, then a
below-window height measurement, then a scroll. -/
def seqIncremental : WindowedListState :=
  updateScrollPosition (updateHeightAtIndex (calculateVisibleIndices seqBase) 5 30) 20

/-- Full-recompute side of the C1 scenario: the same mutations with a fresh
`calculateVisibleIndices` after each step. -/
def seqFullRecompute : WindowedListState :=
  calculateVisibleIndices
    (updateScrollPosition
      (calculateVisibleIndices (updateHeightAtIndex (calculateVisibleIndices seqBase) 5 30)) 20)

/-- Claim C4 scenario: 1000 items of estimated height 100, viewport 400,
scroll offset 120, no measured heights. -/
def exampleLargeList : WindowedListState :=
  { mkState [] with length := 1000, viewportHeight := 400, defaultHeight := 100, scrollTop := 120 }

/-- A consistent state (2 items, the window holding item 0, item heights 1,
totalHeight 2) whose exact `paddingBottom` of 0 sits below the average-height
floor of 1. -/
def noopState : WindowedListState :=
  ⟨1, 2, 1, 0, 1, 0, 0, 0, [], 2, true, 0⟩

/-- A fully calculated steady state: a fresh construction followed by
`calculateVisibleIndices`. -/
def steadyState : WindowedListState :=
  ⟨1, 0, 0, 0, 0, 0, 0, 0, [], 0, true, 1⟩

/-- Claim C5 scenario: a one-item list whose window reaches the end after a
full computation. -/
def endClampState : WindowedListState :=
  calculateVisibleIndices { mkState [] with length := 1, viewportHeight := 400, defaultHeight := 100 }

/-- Claim C6 scenario: grow a default-height-100 list to 2 items, set the
viewport to 50, so the window holds item 0 and item 1 sits below it. -/
def floorState : WindowedListState :=
  updateViewportHeight (updateLength (mkState [StateOption.defaultHeight 100]) 2) 50

/-- Claim C6 below-window measurement: item 1 turns out to be 1px tall. -/
def floorBelowResult : WindowedListState :=
  updateHeightAtIndex floorState 1 1

/-- Claim C8 scenario: the window starts at item 1; item 0 above it is
unmeasured with default height 0. -/
def fracState : WindowedListState :=
  ⟨1, 2, 0, 1, 1, 0, 0, 0, [], 0, false, 0⟩

/-- Claim C8 measurement: item 0 above the window becomes half a pixel. -/
def fracResult : WindowedListState :=
  updateHeightAtIndex fracState 0 (1/2)

/-- Claim C7 witness state: a fresh construction grown to 3 items. -/
def reachWitness : WindowedListState :=
  updateLength (mkState []) 3

/-- Claim C5 witness state: a one-item list whose window reaches the end,
with `visibleLength` consistent with the helper. -/
def endWitnessState : WindowedListState :=
  ⟨400, 1, 100, 0, 1, 0, 0, 0, [], 100, true, 1⟩

/-
Evaluation lemmas.  The loop embeddings are driven one iteration at a time by
the conditional rewriting lemmas below: each fires only once its loop
condition is settled, so a computation stops exactly where the source loop
breaks.
-/

lemma scanDown_zero (s : WindowedListState) (t : ℚ) (i : ℕ) (pt : ℚ) :
    scanDown s t 0 i pt = (i, pt) := rfl

lemma scanDown_succ_of_le (s : WindowedListState) (t : ℚ) (f i : ℕ) (pt : ℚ)
    (h : pt + getItemHeight s (i : ℤ) ≤ t) :
    scanDown s t (f + 1) i pt = scanDown s t f (i + 1) (pt + getItemHeight s (i : ℤ)) := by
  simp [scanDown, h]

lemma scanDown_succ_of_gt (s : WindowedListState) (t : ℚ) (f i : ℕ) (pt : ℚ)
    (h : ¬ pt + getItemHeight s (i : ℤ) ≤ t) :
    scanDown s t (f + 1) i pt = (i, pt) := by
  simp [scanDown, h]

lemma visLenAux_zero (s : WindowedListState) (i : ℕ) (vh : ℚ) :
    visLenAux s 0 i vh = 0 := rfl

lemma visLenAux_succ_of_lt (s : WindowedListState) (f i : ℕ) (vh : ℚ)
    (h : vh < s.viewportHeight) :
    visLenAux s (f + 1) i vh = 1 + visLenAux s f (i + 1) (vh + getItemHeight s (i : ℤ)) := by
  simp [visLenAux, h]

lemma visLenAux_succ_of_ge (s : WindowedListState) (f i : ℕ) (vh : ℚ)
    (h : ¬ vh < s.viewportHeight) :
    visLenAux s (f + 1) i vh = 0 := by
  simp [visLenAux, h]

lemma upWalk_zero (s : WindowedListState) (t : ℚ) (pt : ℚ) :
    upWalk s t 0 pt = (0, pt) := rfl

lemma upWalk_succ_of_gt (s : WindowedListState) (t : ℚ) (top : ℕ) (pt : ℚ)
    (h : pt > t) :
    upWalk s t (top + 1) pt = upWalk s t top (pt - getItemHeight s (top : ℤ)) := by
  simp [upWalk, h]

lemma upWalk_succ_of_le (s : WindowedListState) (t : ℚ) (top : ℕ) (pt : ℚ)
    (h : ¬ pt > t) :
    upWalk s t (top + 1) pt = (top + 1, pt) := by
  simp [upWalk, h]

lemma rangeHeightAux_zero (s : WindowedListState) (i : ℤ) :
    rangeHeightAux s 0 i = 0 := rfl

lemma rangeHeightAux_succ (s : WindowedListState) (f : ℕ) (i : ℤ) :
    rangeHeightAux s (f + 1) i = getItemHeight s i + rangeHeightAux s f (i + 1) := rfl

/-- On a state whose height table is empty, a range of `f` in-range indices
sums to `f` times the default height. -/
lemma rangeHeightAux_no_heights (s : WindowedListState) (hh : s.heights = []) :
    ∀ (f : ℕ) (i : ℤ), 0 ≤ i → i + f ≤ (s.length : ℤ) →
      rangeHeightAux s f i = (f : ℚ) * s.defaultHeight := by
  intro f
  induction f with
  | zero => intro i _ _; simp [rangeHeightAux]
  | succ n ih =>
      intro i h0 hle
      push_cast at hle
      have hrange : ¬ i > (s.length : ℤ) - 1 := by omega
      rw [rangeHeightAux_succ, getItemHeight, if_neg hrange, hh]
      rw [ih (i + 1) (by omega) (by omega)]
      simp only [heightsGet]
      push_cast
      ring

/-- On a state whose height table is empty, `getItemRangeHeight a b` is the
number of indices between `a` and `b` times the default height, provided the
range stays below `length`. -/
lemma getItemRangeHeight_no_heights (s : WindowedListState) (hh : s.heights = [])
    (a b : ℤ) (h0 : 0 ≤ a) (hb : b ≤ (s.length : ℤ) - 1) :
    getItemRangeHeight s a b = (((b + 1 - a).toNat : ℕ) : ℚ) * s.defaultHeight := by
  rw [getItemRangeHeight]
  rcases le_or_lt a b with hab | hab
  · apply rangeHeightAux_no_heights s hh _ _ h0
    omega
  · have h0' : (b + 1 - a).toNat = 0 := by omega
    rw [h0']
    simp [rangeHeightAux]

lemma getItemRangeHeight_empty (s : WindowedListState) (a b : ℤ) (h : b < a) :
    getItemRangeHeight s a b = 0 := by
  rw [getItemRangeHeight]
  have h0 : (b + 1 - a).toNat = 0 := by omega
  rw [h0]
  rfl

/-
General facts about the bottom-padding adjustment rule.
-/

lemma ite_min_le (pb m : ℚ) : m ≤ if pb < m then m else pb := by
  split
  next => exact le_refl m
  next hge => exact not_lt.mp hge

/-- The final clamp of `calcPaddingBottom` makes its result at least the
average-height floor. -/
lemma calcPaddingBottom_ge_floor (s : WindowedListState) (b p : ℤ) :
    minPaddingFloor s b ≤ calcPaddingBottom s b p := by
  simp only [calcPaddingBottom, minPaddingFloor]
  exact ite_min_le _ _

/-- At the last index of the list, `calcPaddingBottom` returns exactly 0. -/
lemma calcPaddingBottom_at_end (s : WindowedListState) (p : ℤ) :
    calcPaddingBottom s ((s.length : ℤ) - 1) p = 0 := by
  have h0 : ((s.length : ℤ) - ((s.length : ℤ) - 1) - 1 : ℤ) = 0 := by ring
  simp only [calcPaddingBottom, h0]
  norm_num

/-- Transfers the floor inequality of `calcPaddingBottom` to a result state
that stores its value as `paddingBottom` while sharing `length` and
`totalHeight` with the state the rule was evaluated on. -/
lemma floor_peel (r s2 : WindowedListState) (b p : ℤ)
    (hpb : r.paddingBottom = calcPaddingBottom s2 b p)
    (hb : visibleBottom r = b)
    (hl : r.length = s2.length) (ht : r.totalHeight = s2.totalHeight) :
    minPaddingFloor r (visibleBottom r) ≤ r.paddingBottom := by
  rw [hpb, hb]
  calc minPaddingFloor r b = minPaddingFloor s2 b := by
        simp only [minPaddingFloor, hl, ht]
    _ ≤ calcPaddingBottom s2 b p := calcPaddingBottom_ge_floor s2 b p

/-- Transfers the end-of-list clamp of `calcPaddingBottom` to a result state
that stores its value as `paddingBottom`. -/
lemma clamp_peel (r s2 : WindowedListState) (b p : ℤ)
    (hpb : r.paddingBottom = calcPaddingBottom s2 b p)
    (hb : visibleBottom r = b) (hl : r.length = s2.length) :
    clampOK r := by
  intro hend
  rw [hpb]
  have hbl : b = (s2.length : ℤ) - 1 := by rw [← hb, ← hl]; exact hend
  rw [hbl]
  exact calcPaddingBottom_at_end s2 p

/-
End-of-list clamp: per-operation lemmas.
-/

lemma clamp_calc (s : WindowedListState) : clampOK (calculateVisibleIndices s) := by
  intro hend
  show getItemRangeHeight _ _ _ = 0
  apply getItemRangeHeight_empty
  simp only [calculateVisibleIndices, visibleBottom] at hend
  dsimp only at hend ⊢
  omega

lemma clamp_viewport (s : WindowedListState) (h : ℚ) (hc : clampOK s) :
    clampOK (updateViewportHeight s h) := by
  by_cases hne : h = s.viewportHeight
  · rw [updateViewportHeight, if_pos hne]; exact hc
  · rw [updateViewportHeight, if_neg hne]
    exact clamp_peel _ _ _ _ rfl rfl rfl

lemma clamp_scroll (s : WindowedListState) (v : ℚ) (hc : clampOK s) :
    clampOK (updateScrollPosition s v) := by
  rw [updateScrollPosition]
  by_cases hcal : s.visibleIndicesCalculated = false
  · rw [if_pos hcal]
    exact clamp_calc _
  · rw [if_neg hcal]
    by_cases hd : v - s.scrollTop = 0
    · rw [if_pos hd]
      have hv : v = s.scrollTop := by linarith [hd]
      subst hv
      exact hc
    · rw [if_neg hd]
      split
      · exact clamp_peel _ _ _ _ rfl rfl rfl
      · exact clamp_peel _ _ _ _ rfl rfl rfl

lemma clamp_height (s : WindowedListState) (i : ℤ) (h : ℚ)
    (hi : i ≤ (s.visibleIndexTop : ℤ) + (s.visibleLength : ℤ) - 1) :
    clampOK (updateHeightAtIndex s i h) := by
  rw [updateHeightAtIndex, if_neg (not_lt.mpr hi)]
  split
  · exact clamp_peel _ _ _ _ rfl rfl rfl
  · exact clamp_peel _ _ _ _ rfl rfl rfl

lemma visLenAux_le (s : WindowedListState) :
    ∀ (f i : ℕ) (vh : ℚ), visLenAux s f i vh ≤ f := by
  intro f
  induction f with
  | zero => intro i vh; exact le_refl 0
  | succ n ih =>
      intro i vh
      by_cases hvh : vh < s.viewportHeight
      · rw [visLenAux_succ_of_lt _ _ _ _ hvh]
        have := ih (i + 1) (vh + getItemHeight s (i : ℤ))
        omega
      · rw [visLenAux_succ_of_ge _ _ _ _ hvh]
        omega

/-- A full walk in one state restricts to a full walk with smaller fuel in a
state with the same viewport whose item heights agree on the walked range. -/
lemma visLenAux_agree_full (sBig sSmall : WindowedListState)
    (hvp : sSmall.viewportHeight = sBig.viewportHeight) :
    ∀ (g f i : ℕ) (vh : ℚ), g ≤ f →
      (∀ m : ℤ, (i : ℤ) ≤ m → m < (i : ℤ) + g → getItemHeight sSmall m = getItemHeight sBig m) →
      visLenAux sBig f i vh = f → visLenAux sSmall g i vh = g := by
  intro g
  induction g with
  | zero => intro f i vh _ _ _; rfl
  | succ k ih =>
      intro f i vh hgf hagree hfull
      obtain ⟨k2, rfl⟩ : ∃ k2, f = k2 + 1 := ⟨f - 1, by omega⟩
      by_cases hvh : vh < sBig.viewportHeight
      · rw [visLenAux_succ_of_lt _ _ _ _ hvh] at hfull
        have hrest : visLenAux sBig k2 (i + 1) (vh + getItemHeight sBig (i : ℤ)) = k2 := by omega
        have hvh2 : vh < sSmall.viewportHeight := by rw [hvp]; exact hvh
        rw [visLenAux_succ_of_lt _ _ _ _ hvh2]
        have hi0 : getItemHeight sSmall (i : ℤ) = getItemHeight sBig (i : ℤ) := by
          apply hagree
          · exact le_refl _
          · omega
        rw [hi0]
        have := ih k2 (i + 1) (vh + getItemHeight sBig (i : ℤ)) (by omega)
          (by
            intro m hm1 hm2
            apply hagree
            · push_cast at hm1 ⊢
              omega
            · push_cast at hm2 ⊢
              omega)
          hrest
        omega
      · rw [visLenAux_succ_of_ge _ _ _ _ hvh] at hfull
        omega

/-- Growing the list preserves the end-of-list clamp on states whose
`visibleLength` is consistent with the helper and whose window lies inside
the list: if the regrown window reaches the new end, the walk must already
have consumed the old list entirely, so the old clamp forces the old padding
to 0 and the appended range is empty. -/
lemma clamp_length (s : WindowedListState) (n : ℕ) (hc : clampOK s)
    (hvl : s.visibleLength = calcVisibleLength s)
    (hbound : s.visibleIndexTop + s.visibleLength ≤ s.length) :
    clampOK (updateLength s n) := by
  by_cases heq : n = s.length
  · rw [updateLength, if_pos heq]; exact hc
  · rw [updateLength, if_neg heq]
    by_cases hgt : n > s.length
    · rw [if_pos hgt]
      intro hend
      simp only [visibleBottom] at hend
      dsimp only at hend ⊢
      set s1 : WindowedListState :=
        { s with length := n,
                 totalHeight := s.totalHeight + ((n : ℚ) - (s.length : ℚ)) * s.defaultHeight } with hs1
      have hnew : s.visibleIndexTop + calcVisibleLength s1 = n := by omega
      have htople : s.visibleIndexTop ≤ s.length := by omega
      have hfuel : calcVisibleLength s1 = n - s.visibleIndexTop := by omega
      have hfull : visLenAux s1 (n - s.visibleIndexTop) s.visibleIndexTop
          (s.paddingTop - s.scrollTop) = n - s.visibleIndexTop := by
        have : calcVisibleLength s1 = visLenAux s1 (n - s.visibleIndexTop) s.visibleIndexTop
            (s.paddingTop - s.scrollTop) := rfl
        omega
      have hagree : ∀ m : ℤ, (s.visibleIndexTop : ℤ) ≤ m →
          m < (s.visibleIndexTop : ℤ) + (s.length - s.visibleIndexTop : ℕ) →
          getItemHeight s m = getItemHeight s1 m := by
        intro m hm1 hm2
        have hmlt : m < (s.length : ℤ) := by
          push_cast at hm2
          omega
        have hm0 : (0 : ℤ) ≤ m := le_trans (Int.natCast_nonneg _) hm1
        rw [getItemHeight, getItemHeight]
        rw [if_neg (by omega), if_neg (by dsimp only [hs1]; omega)]
      have holdfull : visLenAux s (s.length - s.visibleIndexTop) s.visibleIndexTop
          (s.paddingTop - s.scrollTop) = s.length - s.visibleIndexTop := by
        apply visLenAux_agree_full s1 s rfl _ (n - s.visibleIndexTop) _ _ (by omega) hagree hfull
      have holdvl : s.visibleLength = s.length - s.visibleIndexTop := by
        rw [hvl]
        exact holdfull
      have hpb0 : s.paddingBottom = 0 := by
        apply hc
        simp only [visibleBottom]
        omega
      have hempty : ((n : ℤ) - 1)
          < (s.length : ℤ) + ((calcVisibleLength s1 : ℤ) - (s.visibleLength : ℤ)) := by
        omega
      rw [getItemRangeHeight_empty _ _ _ hempty, hpb0]
      norm_num
    · rw [if_neg hgt]
      exact clamp_calc _

/-
No-op stability lemmas.
-/

lemma noop_viewport (s : WindowedListState) : updateViewportHeight s s.viewportHeight = s := by
  rw [updateViewportHeight, if_pos rfl]

lemma noop_length (s : WindowedListState) : updateLength s s.length = s := by
  rw [updateLength, if_pos rfl]

lemma noop_scroll (s : WindowedListState) (h : s.visibleIndicesCalculated = true) :
    updateScrollPosition s s.scrollTop = s := by
  obtain ⟨vp, len, dh, vt, vl, pt, pb, st, hs, th, vic, nc⟩ := s
  subst h
  simp [updateScrollPosition]

/-- A height update whose value equals the current effective height always
invokes the change handler and leaves the configuration fields,
`visibleIndexTop`, `paddingTop` and `totalHeight` unchanged; `scrollTop` is
unchanged whenever `paddingTop ≤ scrollTop`. -/
lemma heightAtIndex_noop_parts (s : WindowedListState) (i : ℤ) :
    (updateHeightAtIndex s i (getItemHeight s i)).notifyCount = s.notifyCount + 1 ∧
    (updateHeightAtIndex s i (getItemHeight s i)).length = s.length ∧
    (updateHeightAtIndex s i (getItemHeight s i)).viewportHeight = s.viewportHeight ∧
    (updateHeightAtIndex s i (getItemHeight s i)).defaultHeight = s.defaultHeight ∧
    (updateHeightAtIndex s i (getItemHeight s i)).visibleIndexTop = s.visibleIndexTop ∧
    (updateHeightAtIndex s i (getItemHeight s i)).paddingTop = s.paddingTop ∧
    (updateHeightAtIndex s i (getItemHeight s i)).totalHeight = s.totalHeight ∧
    (s.paddingTop ≤ s.scrollTop →
      (updateHeightAtIndex s i (getItemHeight s i)).scrollTop = s.scrollTop) := by
  rw [updateHeightAtIndex]
  by_cases hb : i > (s.visibleIndexTop : ℤ) + (s.visibleLength : ℤ) - 1
  · simp only [if_pos hb]
    refine ⟨?_, ?_, ?_, ?_, ?_, ?_, ?_, ?_⟩ <;> first
      | trivial
      | (intro _; trivial)
      | ring
  · simp only [if_neg hb]
    by_cases ha : i < (s.visibleIndexTop : ℤ)
    · simp only [if_pos ha]
      have hpt : s.paddingTop - getItemHeight s i + getItemHeight s i = s.paddingTop := by ring
      simp only [hpt]
      refine ⟨?_, ?_, ?_, ?_, ?_, ?_, ?_, ?_⟩
      all_goals try trivial
      all_goals try ring
      intro hle
      have hc : (⌈-s.scrollTop + s.paddingTop⌉ : ℤ) ≤ 0 := by
        rw [Int.ceil_le]
        push_cast
        linarith
      simp [Int.toNat_of_nonpos hc]
    · simp only [if_neg ha]
      refine ⟨?_, ?_, ?_, ?_, ?_, ?_, ?_, ?_⟩ <;> first
        | trivial
        | (intro _; trivial)
        | ring

/-
Average-height floor: per-operation lemmas for the operations that apply the
bottom-padding adjustment rule.
-/

lemma floor_viewport (s : WindowedListState) (h : ℚ) (hne : ¬ h = s.viewportHeight) :
    minPaddingFloor (updateViewportHeight s h) (visibleBottom (updateViewportHeight s h))
      ≤ (updateViewportHeight s h).paddingBottom := by
  rw [updateViewportHeight, if_neg hne]
  exact floor_peel _ _ _ _ rfl rfl rfl rfl

lemma floor_scroll (s : WindowedListState) (v : ℚ) (hcalc : s.visibleIndicesCalculated = true)
    (hne : ¬ v = s.scrollTop) :
    minPaddingFloor (updateScrollPosition s v) (visibleBottom (updateScrollPosition s v))
      ≤ (updateScrollPosition s v).paddingBottom := by
  rw [updateScrollPosition]
  rw [if_neg (by simp [hcalc])]
  rw [if_neg (sub_ne_zero.mpr hne)]
  split
  · exact floor_peel _ _ _ _ rfl rfl rfl rfl
  · exact floor_peel _ _ _ _ rfl rfl rfl rfl

lemma floor_height (s : WindowedListState) (i : ℤ) (h : ℚ)
    (hi : i ≤ (s.visibleIndexTop : ℤ) + (s.visibleLength : ℤ) - 1) :
    minPaddingFloor (updateHeightAtIndex s i h) (visibleBottom (updateHeightAtIndex s i h))
      ≤ (updateHeightAtIndex s i h).paddingBottom := by
  rw [updateHeightAtIndex]
  rw [if_neg (not_lt.mpr hi)]
  split
  · exact floor_peel _ _ _ _ rfl rfl rfl rfl
  · exact floor_peel _ _ _ _ rfl rfl rfl rfl

/-
Window bounds: the walks stay inside the list, so every operation keeps
`visibleIndexTop + visibleLength ≤ length`.
-/

lemma scanDown_fst_le (s : WindowedListState) (t : ℚ) :
    ∀ (f i : ℕ) (pt : ℚ), (scanDown s t f i pt).1 ≤ i + f := by
  intro f
  induction f with
  | zero => intro i pt; simp [scanDown_zero]
  | succ k ih =>
      intro i pt
      by_cases hle : pt + getItemHeight s (i : ℤ) ≤ t
      · rw [scanDown_succ_of_le _ _ _ _ _ hle]
        have := ih (i + 1) (pt + getItemHeight s (i : ℤ))
        omega
      · rw [scanDown_succ_of_gt _ _ _ _ _ hle]
        omega

lemma upWalk_fst_le (s : WindowedListState) (t : ℚ) :
    ∀ (f : ℕ) (pt : ℚ), (upWalk s t f pt).1 ≤ f := by
  intro f
  induction f with
  | zero => intro pt; simp [upWalk_zero]
  | succ k ih =>
      intro pt
      by_cases hgt : pt > t
      · rw [upWalk_succ_of_gt _ _ _ _ hgt]
        have := ih (pt - getItemHeight s (k : ℤ))
        omega
      · rw [upWalk_succ_of_le _ _ _ _ hgt]

lemma calcVisibleLength_le (s : WindowedListState) :
    calcVisibleLength s ≤ s.length - s.visibleIndexTop := by
  rw [calcVisibleLength]
  exact visLenAux_le s _ _ _

lemma inv_calc (s : WindowedListState) : windowInv (calculateVisibleIndices s) := by
  simp only [windowInv, calculateVisibleIndices]
  have h1 : (if s.scrollTop = 0 then ((0 : ℕ), (0 : ℚ))
      else scanDown s s.scrollTop s.length 0 0).1 ≤ s.length := by
    split
    · simp
    · have := scanDown_fst_le s s.scrollTop s.length 0 0
      omega
  have h2 := calcVisibleLength_le
    { s with
      visibleIndexTop := (if s.scrollTop = 0 then ((0 : ℕ), (0 : ℚ))
        else scanDown s s.scrollTop s.length 0 0).1,
      paddingTop := (if s.scrollTop = 0 then ((0 : ℕ), (0 : ℚ))
        else scanDown s s.scrollTop s.length 0 0).2 }
  dsimp only at h2
  omega

lemma inv_viewport (s : WindowedListState) (h : ℚ) (hinv : windowInv s) :
    windowInv (updateViewportHeight s h) := by
  by_cases hne : h = s.viewportHeight
  · rw [updateViewportHeight, if_pos hne]; exact hinv
  · rw [updateViewportHeight, if_neg hne]
    simp only [windowInv] at hinv ⊢
    have h2 := calcVisibleLength_le { s with viewportHeight := h }
    dsimp only at h2
    omega

lemma inv_length (s : WindowedListState) (n : ℕ) (hinv : windowInv s) :
    windowInv (updateLength s n) := by
  by_cases heq : n = s.length
  · rw [updateLength, if_pos heq]; exact hinv
  · rw [updateLength, if_neg heq]
    by_cases hgt : n > s.length
    · rw [if_pos hgt]
      simp only [windowInv] at hinv ⊢
      have h2 := calcVisibleLength_le
        { s with length := n,
                 totalHeight := s.totalHeight + ((n : ℚ) - (s.length : ℚ)) * s.defaultHeight }
      dsimp only at h2
      omega
    · rw [if_neg hgt]
      exact inv_calc _

lemma inv_scroll (s : WindowedListState) (v : ℚ) (hinv : windowInv s) :
    windowInv (updateScrollPosition s v) := by
  rw [updateScrollPosition]
  by_cases hcal : s.visibleIndicesCalculated = false
  · rw [if_pos hcal]
    exact inv_calc _
  · rw [if_neg hcal]
    by_cases hd : v - s.scrollTop = 0
    · rw [if_pos hd]
      exact hinv
    · rw [if_neg hd]
      simp only [windowInv] at hinv
      by_cases hlt : v - s.scrollTop < 0
      · rw [if_pos hlt]
        simp only [windowInv]
        have h1 : (upWalk { s with scrollTop := v } v s.visibleIndexTop s.paddingTop).1
            ≤ s.visibleIndexTop :=
          upWalk_fst_le _ _ _ _
        have h2 := calcVisibleLength_le
          { s with scrollTop := v,
                   visibleIndexTop := (upWalk { s with scrollTop := v } v s.visibleIndexTop s.paddingTop).1,
                   paddingTop := (upWalk { s with scrollTop := v } v s.visibleIndexTop s.paddingTop).2 }
        dsimp only at h2
        omega
      · rw [if_neg hlt]
        simp only [windowInv]
        have h1 : (scanDown { s with scrollTop := v } v (s.length - s.visibleIndexTop)
            s.visibleIndexTop s.paddingTop).1 ≤ s.visibleIndexTop + (s.length - s.visibleIndexTop) :=
          scanDown_fst_le _ _ _ _ _
        have h2 := calcVisibleLength_le
          { s with scrollTop := v,
                   visibleIndexTop := (scanDown { s with scrollTop := v } v
                     (s.length - s.visibleIndexTop) s.visibleIndexTop s.paddingTop).1,
                   paddingTop := (scanDown { s with scrollTop := v } v
                     (s.length - s.visibleIndexTop) s.visibleIndexTop s.paddingTop).2 }
        dsimp only at h2
        omega

lemma inv_height (s : WindowedListState) (i : ℤ) (h : ℚ) (hinv : windowInv s) :
    windowInv (updateHeightAtIndex s i h) := by
  rw [updateHeightAtIndex]
  by_cases hb : i > (s.visibleIndexTop : ℤ) + (s.visibleLength : ℤ) - 1
  · rw [if_pos hb]
    exact hinv
  · rw [if_neg hb]
    simp only [windowInv] at hinv ⊢
    split
    · dsimp only
      have h2 := calcVisibleLength_le
        { s with heights := heightsSet s.heights i h,
                 totalHeight := s.totalHeight - getItemHeight s i + h,
                 paddingTop := s.paddingTop - getItemHeight s i + h,
                 scrollTop := s.scrollTop +
                   ((⌈s.paddingTop - getItemHeight s i + h - s.scrollTop⌉.toNat : ℕ) : ℚ) }
      dsimp only at h2
      omega
    · dsimp only
      have h2 := calcVisibleLength_le
        { s with heights := heightsSet s.heights i h,
                 totalHeight := s.totalHeight - getItemHeight s i + h }
      dsimp only at h2
      omega

lemma reachable_windowInv {s : WindowedListState} (hr : ReachableState s) : windowInv s := by
  induction hr with
  | construct options => simp [windowInv, mkState]
  | fullCalc _ _ => exact inv_calc _
  | viewport h hh _ ih => exact inv_viewport _ h ih
  | listLength n _ ih => exact inv_length _ n ih
  | scroll v hv _ ih => exact inv_scroll _ v ih
  | heightAt i hi h hh _ ih => exact inv_height _ i h ih

/-
Claims.
-/

/-- Claim C1: full vs. incremental equivalence fails on the code.  In the C1
scenario (10 items of estimated height 10, viewport 50), measuring item 5 at
height 30 below the window and then scrolling to offset 120/10ths leaves the
incremental `paddingBottom` at 60, while the independently maintained state
that recomputes with `calculateVisibleIndices` after each step reaches the
same window with `paddingBottom` 40: the scrolled-down branch of
`calcPaddingBottom` subtracts the heights of indices
`prevVisibleIndexBottom ... visibleIndexBottom - 1` instead of the newly
included indices `prevVisibleIndexBottom + 1 ... visibleIndexBottom`, so it
removes a 10 instead of the 30.  The two states agree on `visibleIndexTop`,
`visibleLength` and `paddingTop` and disagree on `paddingBottom`. -/
theorem claim_C1_divergence :
    seqIncremental.visibleIndexTop = seqFullRecompute.visibleIndexTop ∧
    seqIncremental.visibleLength = seqFullRecompute.visibleLength ∧
    seqIncremental.paddingTop = seqFullRecompute.paddingTop ∧
    seqIncremental.paddingBottom = 60 ∧
    seqFullRecompute.paddingBottom = 40 ∧
    seqIncremental.paddingBottom ≠ seqFullRecompute.paddingBottom := by
  have h0 : seqBase = ⟨50, 10, 10, 0, 0, 0, 0, 0, [], 0, false, 0⟩ := by
    norm_num [seqBase, mkState, applyOption]
  have h1 : calculateVisibleIndices (⟨50, 10, 10, 0, 0, 0, 0, 0, [], 0, false, 0⟩ : WindowedListState)
      = ⟨50, 10, 10, 0, 5, 0, 50, 0, [], 0, true, 1⟩ := by
    norm_num [calculateVisibleIndices, calcVisibleLength, scanDown_succ_of_le, scanDown_succ_of_gt,
      visLenAux_zero, visLenAux_succ_of_lt, visLenAux_succ_of_ge, getItemRangeHeight,
      rangeHeightAux_zero, rangeHeightAux_succ, getItemHeight, heightsGet,
      show Int.toNat 5 = 5 from rfl]
  have h2 : updateHeightAtIndex (⟨50, 10, 10, 0, 5, 0, 50, 0, [], 0, true, 1⟩ : WindowedListState) 5 30
      = ⟨50, 10, 10, 0, 5, 0, 70, 0, [(5, 30)], 20, true, 2⟩ := by
    norm_num [updateHeightAtIndex, heightsSet, getItemHeight, heightsGet]
  have h3 : updateScrollPosition (⟨50, 10, 10, 0, 5, 0, 70, 0, [(5, 30)], 20, true, 2⟩ : WindowedListState) 20
      = ⟨50, 10, 10, 2, 4, 20, 60, 20, [(5, 30)], 20, true, 3⟩ := by
    norm_num [updateScrollPosition, calcVisibleLength, calcPaddingBottom,
      scanDown_succ_of_le, scanDown_succ_of_gt, visLenAux_zero, visLenAux_succ_of_lt,
      visLenAux_succ_of_ge, getItemRangeHeight, rangeHeightAux_zero, rangeHeightAux_succ,
      getItemHeight, heightsGet, show Int.toNat 1 = 1 from rfl]
  have h2b : calculateVisibleIndices (⟨50, 10, 10, 0, 5, 0, 70, 0, [(5, 30)], 20, true, 2⟩ : WindowedListState)
      = ⟨50, 10, 10, 0, 5, 0, 70, 0, [(5, 30)], 20, true, 3⟩ := by
    norm_num [calculateVisibleIndices, calcVisibleLength, scanDown_succ_of_le, scanDown_succ_of_gt,
      visLenAux_zero, visLenAux_succ_of_lt, visLenAux_succ_of_ge, getItemRangeHeight,
      rangeHeightAux_zero, rangeHeightAux_succ, getItemHeight, heightsGet,
      show Int.toNat 5 = 5 from rfl]
  have h3b : updateScrollPosition (⟨50, 10, 10, 0, 5, 0, 70, 0, [(5, 30)], 20, true, 3⟩ : WindowedListState) 20
      = ⟨50, 10, 10, 2, 4, 20, 60, 20, [(5, 30)], 20, true, 4⟩ := by
    norm_num [updateScrollPosition, calcVisibleLength, calcPaddingBottom,
      scanDown_succ_of_le, scanDown_succ_of_gt, visLenAux_zero, visLenAux_succ_of_lt,
      visLenAux_succ_of_ge, getItemRangeHeight, rangeHeightAux_zero, rangeHeightAux_succ,
      getItemHeight, heightsGet, show Int.toNat 1 = 1 from rfl]
  have h4b : calculateVisibleIndices (⟨50, 10, 10, 2, 4, 20, 60, 20, [(5, 30)], 20, true, 4⟩ : WindowedListState)
      = ⟨50, 10, 10, 2, 4, 20, 40, 20, [(5, 30)], 20, true, 5⟩ := by
    norm_num [calculateVisibleIndices, calcVisibleLength, scanDown_succ_of_le, scanDown_succ_of_gt,
      visLenAux_zero, visLenAux_succ_of_lt, visLenAux_succ_of_ge, getItemRangeHeight,
      rangeHeightAux_zero, rangeHeightAux_succ, getItemHeight, heightsGet,
      show Int.toNat 4 = 4 from rfl]
  have hinc : seqIncremental = ⟨50, 10, 10, 2, 4, 20, 60, 20, [(5, 30)], 20, true, 3⟩ := by
    rw [seqIncremental, h0, h1, h2, h3]
  have hfull : seqFullRecompute = ⟨50, 10, 10, 2, 4, 20, 40, 20, [(5, 30)], 20, true, 5⟩ := by
    rw [seqFullRecompute, h0, h1, h2, h2b, h3b, h4b]
  rw [hinc, hfull]
  norm_num

/-- Claim C2: the exported `scrollTop(value)` construction option has no
effect, because the constructor assigns `scrollTop := 0` after running the
options.  Constructing with `scrollTop(120)` yields a state whose `scrollTop`
is 0, not 120. -/
theorem claim_C2_scrollTop_ignored :
    (mkState [StateOption.scrollTop 120]).scrollTop = 0 ∧ (120 : ℚ) ≠ 0 := by
  constructor
  · norm_num [mkState, applyOption]
  · norm_num

/-- Claim C3, counterexample: the claim that every mutation called with its
current value is a silent no-op fails for `updateHeightAtIndex`.  On a fresh
state, re-recording the current effective height of index 0 still invokes the
change handler; and on `noopState` (whose exact `paddingBottom` of 0 sits
below the average-height floor of 1) re-recording the current height of item
0 raises `paddingBottom` from 0 to 1, a public field change. -/
theorem claim_C3_counterexample :
    (updateHeightAtIndex (mkState []) 0 (getItemHeight (mkState []) 0)).notifyCount
      = (mkState []).notifyCount + 1 ∧
    getItemHeight noopState 0 = 1 ∧
    (updateHeightAtIndex noopState 0 (getItemHeight noopState 0)).paddingBottom = 1 ∧
    noopState.paddingBottom = 0 := by
  have hg : getItemHeight noopState 0 = 1 := by
    norm_num [noopState, getItemHeight, heightsGet]
  refine ⟨?_, hg, ?_, ?_⟩
  · norm_num [mkState, applyOption, updateHeightAtIndex, heightsSet, getItemHeight, heightsGet]
  · rw [hg]
    have : updateHeightAtIndex noopState 0 1
        = ⟨1, 2, 1, 0, 1, 0, 1, 0, [(0, 1)], 2, true, 1⟩ := by
      norm_num [noopState, updateHeightAtIndex, heightsSet, getItemHeight, heightsGet,
        calcVisibleLength, calcPaddingBottom, visLenAux_zero, visLenAux_succ_of_lt,
        visLenAux_succ_of_ge, getItemRangeHeight, rangeHeightAux_zero, rangeHeightAux_succ]
    rw [this]
  · norm_num [noopState]

/-- Claim C3, amended: `updateViewportHeight`, `updateLength` and (after the
first full computation) `updateScrollPosition` are exact no-ops with no
notification when called with the current value.  `updateHeightAtIndex`
called with the current effective height always invokes the change handler;
it leaves the configuration fields, `visibleIndexTop`, `paddingTop` and
`totalHeight` unchanged, leaves `scrollTop` unchanged whenever
`paddingTop ≤ scrollTop`, but may still change `visibleLength` or raise
`paddingBottom` to the average-height floor. -/
theorem claim_C3_amended (s : WindowedListState) :
    updateViewportHeight s s.viewportHeight = s ∧
    updateLength s s.length = s ∧
    (s.visibleIndicesCalculated = true → updateScrollPosition s s.scrollTop = s) ∧
    ∀ i : ℤ,
      (updateHeightAtIndex s i (getItemHeight s i)).notifyCount = s.notifyCount + 1 ∧
      (updateHeightAtIndex s i (getItemHeight s i)).length = s.length ∧
      (updateHeightAtIndex s i (getItemHeight s i)).viewportHeight = s.viewportHeight ∧
      (updateHeightAtIndex s i (getItemHeight s i)).defaultHeight = s.defaultHeight ∧
      (updateHeightAtIndex s i (getItemHeight s i)).visibleIndexTop = s.visibleIndexTop ∧
      (updateHeightAtIndex s i (getItemHeight s i)).paddingTop = s.paddingTop ∧
      (updateHeightAtIndex s i (getItemHeight s i)).totalHeight = s.totalHeight ∧
      (s.paddingTop ≤ s.scrollTop →
        (updateHeightAtIndex s i (getItemHeight s i)).scrollTop = s.scrollTop) :=
  ⟨noop_viewport s, noop_length s, noop_scroll s, fun i => heightAtIndex_noop_parts s i⟩

/-- Claim C3, witness: on the fully calculated `steadyState`, a scroll to the
current offset is an exact no-op, and a height re-measurement at the current
value keeps `scrollTop`. -/
theorem claim_C3_amended_witness :
    updateScrollPosition steadyState steadyState.scrollTop = steadyState ∧
    (updateHeightAtIndex steadyState 0 (getItemHeight steadyState 0)).scrollTop
      = steadyState.scrollTop := by
  have h := claim_C3_amended steadyState
  exact ⟨h.2.2.1 rfl, ((h.2.2.2 0).2.2.2.2.2.2.2) (le_refl 0)⟩

/-- Claim C4, counterexample: in the worked example (1000 items of estimated
height 100, viewport 400, scroll offset 120) the code computes
`paddingBottom = 99400`, the height of the 994 items below the window, not
the 89400 stated by the claim. -/
theorem claim_C4_counterexample :
    (calculateVisibleIndices exampleLargeList).paddingBottom = 99400 ∧
    (99400 : ℚ) ≠ 89400 := by
  constructor
  · have h0 : exampleLargeList = ⟨400, 1000, 100, 0, 0, 0, 0, 120, [], 0, false, 0⟩ := by
      norm_num [exampleLargeList, mkState, applyOption]
    rw [h0]
    norm_num [calculateVisibleIndices, calcVisibleLength,
      scanDown_succ_of_le, scanDown_succ_of_gt, visLenAux_zero, visLenAux_succ_of_lt,
      visLenAux_succ_of_ge, getItemRangeHeight_no_heights, getItemHeight, heightsGet]
    norm_num [show Int.toNat 994 = 994 from rfl]
  · norm_num

/-- Claim C4, amended: the worked example yields `visibleIndexTop = 1`,
`visibleLength = 5`, `paddingTop = 100` and `paddingBottom = 99400`, which
equals `(length - visibleIndexTop - visibleLength) * defaultHeight`. -/
theorem claim_C4_amended :
    (calculateVisibleIndices exampleLargeList).visibleIndexTop = 1 ∧
    (calculateVisibleIndices exampleLargeList).visibleLength = 5 ∧
    (calculateVisibleIndices exampleLargeList).paddingTop = 100 ∧
    (calculateVisibleIndices exampleLargeList).paddingBottom = 99400 ∧
    (99400 : ℚ) = ((1000 : ℚ) - 1 - 5) * 100 := by
  have h0 : exampleLargeList = ⟨400, 1000, 100, 0, 0, 0, 0, 120, [], 0, false, 0⟩ := by
    norm_num [exampleLargeList, mkState, applyOption]
  rw [h0]
  refine ⟨?_, ?_, ?_, ?_, by norm_num⟩ <;>
    · norm_num [calculateVisibleIndices, calcVisibleLength,
        scanDown_succ_of_le, scanDown_succ_of_gt, visLenAux_zero, visLenAux_succ_of_lt,
        visLenAux_succ_of_ge, getItemRangeHeight_no_heights, getItemHeight, heightsGet]
      all_goals norm_num [show Int.toNat 994 = 994 from rfl]

/-- Claim C5, counterexample: the end-of-list clamp is not maintained by
every operation.  On `endClampState` (a one-item list whose window already
reaches the last index with `paddingBottom = 0`), recording a height of 7 for
the out-of-range index 2 takes the below-window branch of
`updateHeightAtIndex`, which adds the full delta to `paddingBottom` without
the end-of-list check: the window still ends at `length - 1` but
`paddingBottom` is 7. -/
theorem claim_C5_counterexample :
    visibleBottom (updateHeightAtIndex endClampState 2 7)
      = ((updateHeightAtIndex endClampState 2 7).length : ℤ) - 1 ∧
    (updateHeightAtIndex endClampState 2 7).paddingBottom = 7 ∧
    (7 : ℚ) ≠ 0 := by
  have h0 : ({ mkState [] with length := 1, viewportHeight := 400, defaultHeight := 100 }
      : WindowedListState) = ⟨400, 1, 100, 0, 0, 0, 0, 0, [], 0, false, 0⟩ := by
    norm_num [mkState, applyOption]
  have h1 : endClampState = ⟨400, 1, 100, 0, 1, 0, 0, 0, [], 0, true, 1⟩ := by
    rw [endClampState, h0]
    norm_num [calculateVisibleIndices, calcVisibleLength, scanDown_succ_of_le, scanDown_succ_of_gt,
      visLenAux_zero, visLenAux_succ_of_lt, visLenAux_succ_of_ge, getItemRangeHeight,
      rangeHeightAux_zero, rangeHeightAux_succ, getItemHeight, heightsGet,
      show Int.toNat 0 = 0 from rfl]
  have h2 : updateHeightAtIndex (⟨400, 1, 100, 0, 1, 0, 0, 0, [], 0, true, 1⟩ : WindowedListState) 2 7
      = ⟨400, 1, 100, 0, 1, 0, 7, 0, [(2, 7)], 7, true, 2⟩ := by
    norm_num [updateHeightAtIndex, heightsSet, getItemHeight, heightsGet]
  rw [h1, h2]
  norm_num [visibleBottom]

/-- Claim C5, amended: `calculateVisibleIndices` establishes the end-of-list
clamp unconditionally; `updateViewportHeight` and `updateScrollPosition`
preserve it; `updateLength` preserves it on states whose `visibleLength` is
consistent with the visible-length helper and whose window lies within
bounds; and `updateHeightAtIndex` re-establishes it whenever the index is not
strictly below the window.  (The below-window branch can violate it, as the
counterexample shows.) -/
theorem claim_C5_amended (s : WindowedListState) :
    clampOK (calculateVisibleIndices s) ∧
    (∀ h : ℚ, clampOK s → clampOK (updateViewportHeight s h)) ∧
    (∀ v : ℚ, clampOK s → clampOK (updateScrollPosition s v)) ∧
    (∀ n : ℕ, clampOK s → s.visibleLength = calcVisibleLength s →
      s.visibleIndexTop + s.visibleLength ≤ s.length → clampOK (updateLength s n)) ∧
    (∀ (i : ℤ) (h : ℚ), i ≤ (s.visibleIndexTop : ℤ) + (s.visibleLength : ℤ) - 1 →
      clampOK (updateHeightAtIndex s i h)) :=
  ⟨clamp_calc s,
   fun h hc => clamp_viewport s h hc,
   fun v hc => clamp_scroll s v hc,
   fun n hc hvl hb => clamp_length s n hc hvl hb,
   fun i h hi => clamp_height s i h hi⟩

/-- Claim C5, witness: growing the consistent one-item end-of-list state
`endWitnessState` to 3 items keeps the clamp. -/
theorem claim_C5_witness : clampOK (updateLength endWitnessState 3) := by
  have h := (claim_C5_amended endWitnessState).2.2.2.1 3
  apply h
  · intro _
    rfl
  · norm_num [endWitnessState, calcVisibleLength, visLenAux_zero, visLenAux_succ_of_lt,
      visLenAux_succ_of_ge, getItemHeight, heightsGet]
  · norm_num [endWitnessState]

/-- Claim C6, counterexample: the average-height floor does not hold after
every operation.  On `floorState` (2 items of estimated height 100,
`totalHeight = 200`, window holding item 0), measuring the below-window item
1 at height 1 leaves `paddingBottom = 1` while the floor
`(items below) * (totalHeight / length) = 1 * (101 / 2)` is 50.5 — the
below-window branch applies the raw delta with no floor; the claim names
that branch explicitly.  A subsequent `calculateVisibleIndices` computes the
exact `paddingBottom = 1`, still below the floor — the full recompute applies
no floor either. -/
theorem claim_C6_counterexample :
    0 < floorBelowResult.length ∧
    floorBelowResult.paddingBottom = 1 ∧
    minPaddingFloor floorBelowResult (visibleBottom floorBelowResult) = 101 / 2 ∧
    ¬ (minPaddingFloor floorBelowResult (visibleBottom floorBelowResult)
        ≤ floorBelowResult.paddingBottom) ∧
    (calculateVisibleIndices floorBelowResult).paddingBottom = 1 ∧
    ¬ (minPaddingFloor (calculateVisibleIndices floorBelowResult)
        (visibleBottom (calculateVisibleIndices floorBelowResult))
        ≤ (calculateVisibleIndices floorBelowResult).paddingBottom) := by
  have h0 : mkState [StateOption.defaultHeight 100]
      = ⟨1, 0, 100, 0, 0, 0, 0, 0, [], 0, false, 0⟩ := by
    norm_num [mkState, applyOption]
  have h1 : updateLength (⟨1, 0, 100, 0, 0, 0, 0, 0, [], 0, false, 0⟩ : WindowedListState) 2
      = ⟨1, 2, 100, 0, 1, 0, 100, 0, [], 200, false, 1⟩ := by
    norm_num [updateLength, calcVisibleLength, visLenAux_zero, visLenAux_succ_of_lt,
      visLenAux_succ_of_ge, getItemRangeHeight, rangeHeightAux_zero, rangeHeightAux_succ,
      getItemHeight, heightsGet, show Int.toNat 1 = 1 from rfl]
  have h2 : updateViewportHeight (⟨1, 2, 100, 0, 1, 0, 100, 0, [], 200, false, 1⟩ : WindowedListState) 50
      = ⟨50, 2, 100, 0, 1, 0, 100, 0, [], 200, false, 2⟩ := by
    norm_num [updateViewportHeight, calcVisibleLength, calcPaddingBottom, visLenAux_zero,
      visLenAux_succ_of_lt, visLenAux_succ_of_ge, getItemRangeHeight, rangeHeightAux_zero,
      rangeHeightAux_succ, getItemHeight, heightsGet]
  have h3 : floorBelowResult = ⟨50, 2, 100, 0, 1, 0, 1, 0, [(1, 1)], 101, false, 3⟩ := by
    rw [floorBelowResult, floorState, h0, h1, h2]
    norm_num [updateHeightAtIndex, heightsSet, getItemHeight, heightsGet]
  have h4 : calculateVisibleIndices (⟨50, 2, 100, 0, 1, 0, 1, 0, [(1, 1)], 101, false, 3⟩ : WindowedListState)
      = ⟨50, 2, 100, 0, 1, 0, 1, 0, [(1, 1)], 101, true, 4⟩ := by
    norm_num [calculateVisibleIndices, calcVisibleLength, scanDown_succ_of_le, scanDown_succ_of_gt,
      visLenAux_zero, visLenAux_succ_of_lt, visLenAux_succ_of_ge, getItemRangeHeight,
      rangeHeightAux_zero, rangeHeightAux_succ, getItemHeight, heightsGet,
      show Int.toNat 1 = 1 from rfl]
  rw [h3, h4]
  norm_num [minPaddingFloor, visibleBottom]

/-- Claim C6, amended: the average-height floor holds right after the
operations that apply the bottom-padding adjustment rule — a changed
`updateViewportHeight`, the incremental path of `updateScrollPosition`, and
`updateHeightAtIndex` for an index not strictly below the window.  (It can
fail after `calculateVisibleIndices` and after the below-window branch of
`updateHeightAtIndex`, as the counterexample shows.) -/
theorem claim_C6_amended (s : WindowedListState) :
    (∀ h : ℚ, ¬ h = s.viewportHeight → 0 < s.length →
      minPaddingFloor (updateViewportHeight s h) (visibleBottom (updateViewportHeight s h))
        ≤ (updateViewportHeight s h).paddingBottom) ∧
    (∀ v : ℚ, s.visibleIndicesCalculated = true → ¬ v = s.scrollTop → 0 < s.length →
      minPaddingFloor (updateScrollPosition s v) (visibleBottom (updateScrollPosition s v))
        ≤ (updateScrollPosition s v).paddingBottom) ∧
    (∀ (i : ℤ) (h : ℚ), i ≤ (s.visibleIndexTop : ℤ) + (s.visibleLength : ℤ) - 1 →
      0 < s.length →
      minPaddingFloor (updateHeightAtIndex s i h) (visibleBottom (updateHeightAtIndex s i h))
        ≤ (updateHeightAtIndex s i h).paddingBottom) :=
  ⟨fun h hne _ => floor_viewport s h hne,
   fun v hc hne _ => floor_scroll s v hc hne,
   fun i h hi _ => floor_height s i h hi⟩

/-- Claim C6, witness: resizing the viewport of the consistent two-item state
`noopState` to 5 keeps `paddingBottom` at or above the floor. -/
theorem claim_C6_witness :
    minPaddingFloor (updateViewportHeight noopState 5)
      (visibleBottom (updateViewportHeight noopState 5))
      ≤ (updateViewportHeight noopState 5).paddingBottom :=
  (claim_C6_amended noopState).1 5 (by norm_num [noopState]) (by norm_num [noopState])

/-- Claim C7: on every state reachable from a fresh construction through the
five mutation operations with non-negative numeric inputs, the window lies
within the list: `0 ≤ visibleIndexTop` and
`visibleIndexTop + visibleLength ≤ length`. -/
theorem claim_C7 (s : WindowedListState) (hr : ReachableState s) (_hlen : 0 < s.length) :
    (0 : ℤ) ≤ (s.visibleIndexTop : ℤ) ∧ s.visibleIndexTop + s.visibleLength ≤ s.length :=
  ⟨Int.natCast_nonneg _, reachable_windowInv hr⟩

/-- Claim C7, witness: the freshly constructed state grown to 3 items is
reachable and satisfies the window bounds. -/
theorem claim_C7_witness :
    (0 : ℤ) ≤ (reachWitness.visibleIndexTop : ℤ) ∧
    reachWitness.visibleIndexTop + reachWitness.visibleLength ≤ reachWitness.length :=
  claim_C7 reachWitness (ReachableState.listLength 3 (ReachableState.construct []))
    (by norm_num [reachWitness, updateLength, mkState, applyOption])

/-- Claim C8, counterexample: the claim that an above-window height increase
pushing `paddingTop` past `scrollTop` advances `scrollTop` to equal the new
`paddingTop` fails for fractional heights: measuring item 0 of `fracState`
(above the window at index 1) at half a pixel makes `paddingTop = 1/2`, but
the `while (paddingTop > scrollTop) scrollTop++` loop advances `scrollTop`
by whole units, landing on 1, not 1/2. -/
theorem claim_C8_counterexample :
    fracState.scrollTop < fracResult.paddingTop ∧
    fracResult.paddingTop = 1 / 2 ∧
    fracResult.scrollTop = 1 ∧
    fracResult.scrollTop ≠ fracResult.paddingTop := by
  have h1 : fracResult = ⟨1, 2, 0, 1, 1, 1/2, 0, 1, [(0, 1/2)], 1/2, false, 1⟩ := by
    rw [fracResult, fracState]
    norm_num [updateHeightAtIndex, heightsSet, getItemHeight, heightsGet, calcVisibleLength,
      calcPaddingBottom, visLenAux_zero, visLenAux_succ_of_lt, visLenAux_succ_of_ge,
      getItemRangeHeight, rangeHeightAux_zero, rangeHeightAux_succ,
      show (⌈(1/2 : ℚ)⌉ : ℤ) = 1 from by rw [Int.ceil_eq_iff] ; norm_num,
      show Int.toNat 1 = 1 from rfl]
  rw [h1]
  norm_num [fracState]

/-- Claim C8, amended: for an index strictly above the window,
`updateHeightAtIndex` adjusts `paddingTop` by the height delta; `scrollTop`
becomes `scrollTop` plus max 0 of the ceiling of
`(new paddingTop - scrollTop)` — the result of advancing by whole units —
so it is unchanged when the new `paddingTop` does not exceed it, and
otherwise lands at the first whole-unit increment at or above the new
`paddingTop` (equal to it only when the difference is an integer). -/
theorem claim_C8_amended (s : WindowedListState) (i : ℤ) (h : ℚ)
    (hi : i < (s.visibleIndexTop : ℤ)) :
    (updateHeightAtIndex s i h).paddingTop = s.paddingTop + (h - getItemHeight s i) ∧
    (updateHeightAtIndex s i h).scrollTop
      = s.scrollTop + ((⌈s.paddingTop - getItemHeight s i + h - s.scrollTop⌉.toNat : ℕ) : ℚ) ∧
    ((updateHeightAtIndex s i h).paddingTop ≤ s.scrollTop →
      (updateHeightAtIndex s i h).scrollTop = s.scrollTop) ∧
    (s.scrollTop < (updateHeightAtIndex s i h).paddingTop →
      (updateHeightAtIndex s i h).paddingTop ≤ (updateHeightAtIndex s i h).scrollTop ∧
      (updateHeightAtIndex s i h).scrollTop < (updateHeightAtIndex s i h).paddingTop + 1) := by
  have hb : ¬ i > (s.visibleIndexTop : ℤ) + (s.visibleLength : ℤ) - 1 := by
    have h0 : (0 : ℤ) ≤ (s.visibleLength : ℤ) := Int.natCast_nonneg _
    omega
  rw [updateHeightAtIndex, if_neg hb, if_pos hi]
  refine ⟨by ring, rfl, ?_, ?_⟩
  · intro hle
    dsimp only at hle ⊢
    have hc : (⌈s.paddingTop - getItemHeight s i + h - s.scrollTop⌉ : ℤ) ≤ 0 := by
      rw [Int.ceil_le]
      push_cast
      linarith
    simp [Int.toNat_of_nonpos hc]
  · intro hlt
    dsimp only at hlt ⊢
    have hpos : (0 : ℤ) < ⌈s.paddingTop - getItemHeight s i + h - s.scrollTop⌉ := by
      rw [Int.lt_ceil]
      push_cast
      linarith
    have htn : ((⌈s.paddingTop - getItemHeight s i + h - s.scrollTop⌉.toNat : ℕ) : ℚ)
        = ((⌈s.paddingTop - getItemHeight s i + h - s.scrollTop⌉ : ℤ) : ℚ) := by
      exact_mod_cast Int.toNat_of_nonneg (le_of_lt hpos)
    rw [htn]
    have h1 := Int.le_ceil (s.paddingTop - getItemHeight s i + h - s.scrollTop)
    have h2 := Int.ceil_lt_add_one (s.paddingTop - getItemHeight s i + h - s.scrollTop)
    constructor
    · linarith [h1]
    · linarith [h2]

/-- Claim C8, witness: the amended behavior at the concrete fractional
scenario. -/
theorem claim_C8_witness :
    (updateHeightAtIndex fracState 0 (1/2)).paddingTop
      = fracState.paddingTop + ((1/2 : ℚ) - getItemHeight fracState 0) :=
  (claim_C8_amended fracState 0 (1/2) (by norm_num [fracState])).1

/-- Claim C9: measuring an index strictly below the window changes
`paddingBottom` and `totalHeight` by the height delta and leaves
`visibleIndexTop`, `visibleLength`, `paddingTop`, `scrollTop`,
`viewportHeight` and `length` unchanged. -/
theorem claim_C9 (s : WindowedListState) (i : ℤ) (h : ℚ)
    (hi : (s.visibleIndexTop : ℤ) + (s.visibleLength : ℤ) - 1 < i) :
    (updateHeightAtIndex s i h).paddingBottom = s.paddingBottom + (h - getItemHeight s i) ∧
    (updateHeightAtIndex s i h).totalHeight = s.totalHeight + (h - getItemHeight s i) ∧
    (updateHeightAtIndex s i h).visibleIndexTop = s.visibleIndexTop ∧
    (updateHeightAtIndex s i h).visibleLength = s.visibleLength ∧
    (updateHeightAtIndex s i h).paddingTop = s.paddingTop ∧
    (updateHeightAtIndex s i h).scrollTop = s.scrollTop ∧
    (updateHeightAtIndex s i h).viewportHeight = s.viewportHeight ∧
    (updateHeightAtIndex s i h).length = s.length := by
  rw [updateHeightAtIndex]
  simp only [if_pos hi]
  refine ⟨by ring, by ring, ?_, ?_, ?_, ?_, ?_, ?_⟩ <;> trivial

/-- Claim C9, witness: a below-window measurement on the concrete state
`fracState` (window is the single index 1; index 5 lies below it). -/
theorem claim_C9_witness :
    (updateHeightAtIndex fracState 5 3).paddingBottom
      = fracState.paddingBottom + (3 - getItemHeight fracState 5) ∧
    (updateHeightAtIndex fracState 5 3).totalHeight
      = fracState.totalHeight + (3 - getItemHeight fracState 5) ∧
    (updateHeightAtIndex fracState 5 3).visibleIndexTop = fracState.visibleIndexTop ∧
    (updateHeightAtIndex fracState 5 3).visibleLength = fracState.visibleLength ∧
    (updateHeightAtIndex fracState 5 3).paddingTop = fracState.paddingTop ∧
    (updateHeightAtIndex fracState 5 3).scrollTop = fracState.scrollTop ∧
    (updateHeightAtIndex fracState 5 3).viewportHeight = fracState.viewportHeight ∧
    (updateHeightAtIndex fracState 5 3).length = fracState.length :=
  claim_C9 fracState 5 3 (by norm_num [fracState])

/-- Claim C10: growing the list leaves `visibleIndexTop`, `paddingTop` and
`scrollTop` unchanged (along with `viewportHeight`, `defaultHeight`, the
height table and the calculated flag); only `length`, `totalHeight`,
`visibleLength` and `paddingBottom` may change. -/
theorem claim_C10 (s : WindowedListState) (n : ℕ) (hn : s.length < n) :
    (updateLength s n).visibleIndexTop = s.visibleIndexTop ∧
    (updateLength s n).paddingTop = s.paddingTop ∧
    (updateLength s n).scrollTop = s.scrollTop ∧
    (updateLength s n).viewportHeight = s.viewportHeight ∧
    (updateLength s n).defaultHeight = s.defaultHeight ∧
    (updateLength s n).heights = s.heights ∧
    (updateLength s n).length = n ∧
    (updateLength s n).visibleIndicesCalculated = s.visibleIndicesCalculated := by
  rw [updateLength]
  rw [if_neg (by omega : ¬ n = s.length)]
  simp only [if_pos hn]
  refine ⟨?_, ?_, ?_, ?_, ?_, ?_, ?_, ?_⟩ <;> trivial

/-- Claim C10, witness: growing the concrete state `fracState` from 2 to 5
items. -/
theorem claim_C10_witness :
    (updateLength fracState 5).visibleIndexTop = fracState.visibleIndexTop ∧
    (updateLength fracState 5).paddingTop = fracState.paddingTop ∧
    (updateLength fracState 5).scrollTop = fracState.scrollTop ∧
    (updateLength fracState 5).viewportHeight = fracState.viewportHeight ∧
    (updateLength fracState 5).defaultHeight = fracState.defaultHeight ∧
    (updateLength fracState 5).heights = fracState.heights ∧
    (updateLength fracState 5).length = 5 ∧
    (updateLength fracState 5).visibleIndicesCalculated = fracState.visibleIndicesCalculated :=
  claim_C10 fracState 5 (by norm_num [fracState])
